import Mathlib

/-!
Shallow embedding of mmcv/parallel/data_parallel.py (class MMDataParallel).

The file models the device bookkeeping of MMDataParallel faithfully:

* devices, tensors (reduced to their device, the only attribute the class
  inspects), modules with parameters/buffers and the three callable entry
  points (call, train_step, val_step);
* the host-framework primitives (scatter_kwargs, replicate, parallel_apply,
  gather) are abstract functions bundled in an environment structure: the
  spec describes them only as framework-provided primitives and their code
  is not part of this module;
* each method returns an Except value (the result or the Python exception
  raised) together with a trace of the primitive operations it performed,
  in order, so that claims of the form "raises before any scatter" are
  expressible.
-/

set_option autoImplicit false

namespace MMCV

/-- Torch device: cpu or a cuda device with an index. -/
inductive TorchDevice where
  | cpu : TorchDevice
  | cuda : Int → TorchDevice
deriving DecidableEq, Repr

/-- Printed form of a device, as in torch error messages. -/
def TorchDevice.toStr : TorchDevice → String
  | TorchDevice.cpu => "cpu"
  | TorchDevice.cuda i => "cuda:" ++ toString i

/-- A tensor, reduced to the only attribute MMDataParallel reads: its device. -/
structure Tensor where
  device : TorchDevice
deriving DecidableEq, Repr

/-- The third argument of MMDataParallel.scatter is dynamically typed in the
source: forward passes a list of device ids while train_step and val_step
pass the plain integer -1 on the CPU path. -/
inductive ScatterTarget where
  | ofInt : Int → ScatterTarget
  | ofList : List Int → ScatterTarget
deriving DecidableEq, Repr

/-- Python exceptions that the methods of MMDataParallel can raise. -/
inductive PyError where
  | runtimeError : String → PyError
  | assertionError : String → PyError
  | typeError : String → PyError
  | indexError : PyError
  | attributeError : PyError
deriving DecidableEq, Repr

/-- Whether an exception is a RuntimeError. -/
def PyError.isRuntimeErr : PyError → Bool
  | PyError.runtimeError _ => true
  | _ => false

/-- A torch nn.Module, with the tensors it owns and its entry points.
Positional arguments are a list of values, keyword arguments a list of
string-keyed values. -/
structure NNModule (V : Type) where
  parameters : List Tensor
  buffers : List Tensor
  call : List V → List (String × V) → V
  train_step : List V → List (String × V) → V
  val_step : List V → List (String × V) → V

/-- Effect of module.cuda(d): every parameter and buffer is moved to the cuda
device with index d. -/
def NNModule.cudaTo {V : Type} (m : NNModule V) (d : Int) : NNModule V :=
  { m with
    parameters := m.parameters.map fun _ => ⟨TorchDevice.cuda d⟩
    buffers := m.buffers.map fun _ => ⟨TorchDevice.cuda d⟩ }

/-- Modelled from the spec: the host-framework primitives the module
delegates to — scatter_kwargs (splitting inputs across devices), replicate
(copying a module to each target device), parallel_apply (applying one
replica per input chunk) and gather (recombining outputs on one device).
Their code is not part of this module; the spec glossary describes them
only as host-framework operations, so they are abstract here. -/
structure MMEnv (V : Type) where
  scatter_kwargs : List V → List (String × V) → ScatterTarget → Int →
      List (List V) × List (List (String × V))
  replicate : NNModule V → List Int → List (NNModule V)
  parallel_apply : List (NNModule V) → List (List V) →
      List (List (String × V)) → List V
  gather : List V → Int → V

/-- Primitive operations a method performs, recorded in order. -/
inductive MMOp where
  | scatterOp : ScatterTarget → MMOp
  | replicateOp : List Int → MMOp
  | parallelApplyOp : Nat → Nat → MMOp
  | gatherOp : Int → MMOp
  | moduleCall : MMOp
  | moduleTrainStep : MMOp
  | moduleValStep : MMOp
deriving DecidableEq, Repr

/-- CUDA runtime state visible to the constructor. -/
structure CudaEnv where
  is_available : Bool
  device_count : Nat

/-- torch.cuda._utils._get_device_index with optional=True: on a plain
integer device id it returns the id unchanged. -/
def get_device_index (device : Int) : Int := device

/-- State of an MMDataParallel instance. output_device and src_device_obj
are none exactly when the attribute was never set (the CPU-only branch of
the constructor returns early without setting them). -/
structure MMDataParallel (V : Type) where
  module : NNModule V
  device_ids : List Int
  dim : Int
  output_device : Option Int
  src_device_obj : Option TorchDevice

/-- Result of a method call: the returned value or the exception raised,
together with the trace of primitive operations performed. -/
abbrev MMResult (V : Type) := Except PyError V × List MMOp

/-- Shared tail of the constructor once the effective device id list and
output device are known: self.device_ids, self.output_device and
self.src_device_obj are assigned (reading device_ids[0] raises IndexError
on an empty list), _check_balance only warns, and a single-device module
is moved onto that device. -/
def mkMMDP {V : Type} (module : NNModule V) (dids : List Int) (od : Int)
    (dim : Int) : Except PyError (MMDataParallel V) :=
  match dids.head? with
  | none => Except.error PyError.indexError
  | some b0 =>
      Except.ok
        { module := if dids.length = 1 then module.cudaTo b0 else module
          device_ids := dids.map get_device_index
          dim := dim
          output_device := some (get_device_index od)
          src_device_obj := some (TorchDevice.cuda (get_device_index b0)) }

/-- MMDataParallel.__init__. When CUDA is unavailable it stores the module,
an empty device id list and the dim, and returns early. Otherwise a missing
device_ids argument defaults to all CUDA device indices, a missing
output_device defaults to device_ids[0], and the remaining attributes are
set by mkMMDP. -/
def MMDataParallel.init {V : Type} (env : CudaEnv) (module : NNModule V)
    (device_ids : Option (List Int)) (output_device : Option Int)
    (dim : Int) : Except PyError (MMDataParallel V) :=
  if env.is_available = false then
    Except.ok
      { module := module
        device_ids := []
        dim := dim
        output_device := none
        src_device_obj := none }
  else
    let dids :=
      match device_ids with
      | none => (List.range env.device_count).map Int.ofNat
      | some ds => ds
    match output_device with
    | some od => mkMMDP module dids od dim
    | none =>
        match dids.head? with
        | none => Except.error PyError.indexError
        | some b0 => mkMMDP module dids b0 dim

/-- MMDataParallel.scatter: pure delegation to scatter_kwargs with the dim
fixed at construction. -/
def MMDataParallel.scatter {V : Type} (self : MMDataParallel V)
    (env : MMEnv V) (inputs : List V) (kwargs : List (String × V))
    (device_ids : ScatterTarget) :
    List (List V) × List (List (String × V)) :=
  env.scatter_kwargs inputs kwargs device_ids self.dim

/-- The for-loop over chain(parameters, buffers): the first tensor found on
a device other than src_device_obj yields the RuntimeError the loop raises;
none means the check passes. -/
def deviceCheck {V : Type} (self : MMDataParallel V) : Option PyError :=
  match (self.module.parameters ++ self.module.buffers).find?
      (fun t => some t.device ≠ self.src_device_obj) with
  | some t =>
      some (PyError.runtimeError
        ("module must have its parameters and buffers on device " ++
         (match self.src_device_obj with
          | some d => d.toStr
          | none => "") ++
         " (device_ids[0]) but found one of them on device: " ++
         t.device.toStr))
  | none => none

/-- Assertion message of train_step and val_step (the source concatenates
the adjacent string literals without a space before "instead"). -/
def mmdpAssertMsg : String :=
  "MMDataParallel only supports single GPU training, if you need to" ++
  " train with multiple GPUs, please use MMDistributedDataParallel" ++
  "instead."

/-- MMDataParallel.forward. Empty device_ids: scatter to [-1] and call the
module on the first chunk. Otherwise: device check, scatter to device_ids,
then either a direct call (single device) or replicate, parallel_apply and
gather. -/
def MMDataParallel.forward {V : Type} (self : MMDataParallel V)
    (env : MMEnv V) (inputs : List V) (kwargs : List (String × V)) :
    MMResult V :=
  if self.device_ids = [] then
    let s := self.scatter env inputs kwargs (ScatterTarget.ofList [-1])
    match s.1.head?, s.2.head? with
    | some i0, some k0 =>
        (Except.ok (self.module.call i0 k0),
         [MMOp.scatterOp (ScatterTarget.ofList [-1]), MMOp.moduleCall])
    | _, _ =>
        (Except.error PyError.indexError,
         [MMOp.scatterOp (ScatterTarget.ofList [-1])])
  else
    match deviceCheck self with
    | some e => (Except.error e, [])
    | none =>
        let s := self.scatter env inputs kwargs
          (ScatterTarget.ofList self.device_ids)
        if self.device_ids.length = 1 then
          match s.1.head?, s.2.head? with
          | some i0, some k0 =>
              (Except.ok (self.module.call i0 k0),
               [MMOp.scatterOp (ScatterTarget.ofList self.device_ids),
                MMOp.moduleCall])
          | _, _ =>
              (Except.error PyError.indexError,
               [MMOp.scatterOp (ScatterTarget.ofList self.device_ids)])
        else
          let replicas :=
            env.replicate self.module (self.device_ids.take s.1.length)
          let outputs := env.parallel_apply replicas s.1 s.2
          match self.output_device with
          | none =>
              (Except.error PyError.attributeError,
               [MMOp.scatterOp (ScatterTarget.ofList self.device_ids),
                MMOp.replicateOp (self.device_ids.take s.1.length),
                MMOp.parallelApplyOp replicas.length s.1.length])
          | some od =>
              (Except.ok (env.gather outputs od),
               [MMOp.scatterOp (ScatterTarget.ofList self.device_ids),
                MMOp.replicateOp (self.device_ids.take s.1.length),
                MMOp.parallelApplyOp replicas.length s.1.length,
                MMOp.gatherOp od])

/-- MMDataParallel.train_step. Empty device_ids: the source scatters with
the integer target -1 (not the list [-1]) and then evaluates
module.train_step(*inputs, **kwargs), where inputs and kwargs are the
tuples returned by scatter; applying ** to that tuple raises TypeError in
Python before the module is entered. Nonempty device_ids: assert exactly
one device, device check, scatter, call train_step on the first chunk. -/
def MMDataParallel.train_step {V : Type} (self : MMDataParallel V)
    (env : MMEnv V) (inputs : List V) (kwargs : List (String × V)) :
    MMResult V :=
  if self.device_ids = [] then
    let _s := self.scatter env inputs kwargs (ScatterTarget.ofInt (-1))
    (Except.error (PyError.typeError "argument after ** must be a mapping"),
     [MMOp.scatterOp (ScatterTarget.ofInt (-1))])
  else
    if self.device_ids.length = 1 then
      match deviceCheck self with
      | some e => (Except.error e, [])
      | none =>
          let s := self.scatter env inputs kwargs
            (ScatterTarget.ofList self.device_ids)
          match s.1.head?, s.2.head? with
          | some i0, some k0 =>
              (Except.ok (self.module.train_step i0 k0),
               [MMOp.scatterOp (ScatterTarget.ofList self.device_ids),
                MMOp.moduleTrainStep])
          | _, _ =>
              (Except.error PyError.indexError,
               [MMOp.scatterOp (ScatterTarget.ofList self.device_ids)])
    else
      (Except.error (PyError.assertionError mmdpAssertMsg), [])

/-- MMDataParallel.val_step, structurally identical to train_step with
module.val_step in place of module.train_step. -/
def MMDataParallel.val_step {V : Type} (self : MMDataParallel V)
    (env : MMEnv V) (inputs : List V) (kwargs : List (String × V)) :
    MMResult V :=
  if self.device_ids = [] then
    let _s := self.scatter env inputs kwargs (ScatterTarget.ofInt (-1))
    (Except.error (PyError.typeError "argument after ** must be a mapping"),
     [MMOp.scatterOp (ScatterTarget.ofInt (-1))])
  else
    if self.device_ids.length = 1 then
      match deviceCheck self with
      | some e => (Except.error e, [])
      | none =>
          let s := self.scatter env inputs kwargs
            (ScatterTarget.ofList self.device_ids)
          match s.1.head?, s.2.head? with
          | some i0, some k0 =>
              (Except.ok (self.module.val_step i0 k0),
               [MMOp.scatterOp (ScatterTarget.ofList self.device_ids),
                MMOp.moduleValStep])
          | _, _ =>
              (Except.error PyError.indexError,
               [MMOp.scatterOp (ScatterTarget.ofList self.device_ids)])
    else
      (Except.error (PyError.assertionError mmdpAssertMsg), [])

/-- The general scatter-replicate-apply-gather pipeline as the spec
describes multi-device forward: split the batch across the devices,
replicate the module onto the devices that received a chunk, apply the
replicas in parallel and recombine the outputs on the output device. -/
def generalPipeline {V : Type} (env : MMEnv V) (m : NNModule V)
    (device_ids : List Int) (dim : Int) (od : Int)
    (inputs : List V) (kwargs : List (String × V)) : V :=
  env.gather
    (env.parallel_apply
      (env.replicate m (device_ids.take
        (env.scatter_kwargs inputs kwargs (ScatterTarget.ofList device_ids)
          dim).1.length))
      (env.scatter_kwargs inputs kwargs (ScatterTarget.ofList device_ids)
        dim).1
      (env.scatter_kwargs inputs kwargs (ScatterTarget.ofList device_ids)
        dim).2)
    od

/-! Concrete instantiation used to evaluate the model on closed inputs. -/

/-- A concrete module over Nat values whose parameter sits on cuda:0. -/
def demoModule : NNModule Nat :=
  { parameters := [⟨TorchDevice.cuda 0⟩]
    buffers := []
    call := fun args _ => args.headD 0
    train_step := fun args _ => args.headD 0 + 1
    val_step := fun args _ => args.headD 0 + 2 }

/-- A concrete module whose parameter sits on the cpu. -/
def demoBadModule : NNModule Nat :=
  { demoModule with parameters := [⟨TorchDevice.cpu⟩] }

/-- A concrete environment: scatter to a list of n devices copies the
arguments n times (and an integer target yields nothing), replicate copies
the module per device, parallel_apply zips replicas with chunks, gather
takes the first output. -/
def demoEnv : MMEnv Nat :=
  { scatter_kwargs := fun inputs kwargs target _ =>
      match target with
      | ScatterTarget.ofList ds =>
          (ds.map fun _ => inputs, ds.map fun _ => kwargs)
      | ScatterTarget.ofInt _ => ([], [])
    replicate := fun m ds => ds.map fun _ => m
    parallel_apply := fun ms ins kws =>
      List.zipWith (fun m p => m.call p.1 p.2) ms (ins.zip kws)
    gather := fun outs _ => outs.headD 0 }

/-- Instance configured with the single device 0. -/
def demoSelf1 : MMDataParallel Nat :=
  { module := demoModule
    device_ids := [0]
    dim := 0
    output_device := some 0
    src_device_obj := some (TorchDevice.cuda 0) }

/-- Instance configured with the two devices 0 and 1. -/
def demoSelf2 : MMDataParallel Nat :=
  { demoSelf1 with device_ids := [0, 1] }

/-- Two-device instance whose module has a parameter on the cpu, so the
device check fails. -/
def demoBadSelf2 : MMDataParallel Nat :=
  { demoSelf2 with module := demoBadModule }

/-- Single-device instance whose module has a parameter on the cpu. -/
def demoBadSelf1 : MMDataParallel Nat :=
  { demoSelf1 with module := demoBadModule }

/-- CPU-only instance (empty device_ids, as the constructor produces when
CUDA is unavailable). -/
def cpuSelf : MMDataParallel Nat :=
  { module := demoModule
    device_ids := []
    dim := 0
    output_device := none
    src_device_obj := none }

/-- Whether a call result is a raised RuntimeError. -/
def resultIsRuntimeErr {V : Type} : Except PyError V → Bool
  | Except.error e => e.isRuntimeErr
  | Except.ok _ => false

/-- Claim C8: every call to scatter equals scatter_kwargs applied to the
inputs, kwargs and device ids with the dim fixed at construction — pure
delegation with no other transformation. -/
theorem scatter_delegates_to_scatter_kwargs {V : Type}
    (self : MMDataParallel V) (env : MMEnv V) (inputs : List V)
    (kwargs : List (String × V)) (device_ids : ScatterTarget) :
    self.scatter env inputs kwargs device_ids =
      env.scatter_kwargs inputs kwargs device_ids self.dim := rfl

/-- Claim C3: on an instance with more than one device, train_step and
val_step raise AssertionError, with an empty operation trace: no scatter
was performed and the wrapped module was never entered. -/
theorem train_val_step_assert_multi_gpu {V : Type}
    (self : MMDataParallel V) (env : MMEnv V) (inputs : List V)
    (kwargs : List (String × V)) (h : 1 < self.device_ids.length) :
    self.train_step env inputs kwargs =
      (Except.error (PyError.assertionError mmdpAssertMsg), []) ∧
    self.val_step env inputs kwargs =
      (Except.error (PyError.assertionError mmdpAssertMsg), []) := by
  have hne : self.device_ids ≠ [] := by
    intro hnil
    rw [hnil] at h
    simp at h
  have hlen : self.device_ids.length ≠ 1 := by omega
  constructor
  · simp [MMDataParallel.train_step, hne, hlen]
  · simp [MMDataParallel.val_step, hne, hlen]

/-- Witness for C3 at the concrete two-device instance. -/
theorem train_val_step_assert_multi_gpu_witness :
    1 < demoSelf2.device_ids.length ∧
    demoSelf2.train_step demoEnv [5] [] =
      (Except.error (PyError.assertionError mmdpAssertMsg), []) ∧
    demoSelf2.val_step demoEnv [5] [] =
      (Except.error (PyError.assertionError mmdpAssertMsg), []) :=
  ⟨by decide,
   (train_val_step_assert_multi_gpu demoSelf2 demoEnv [5] [] (by decide)).1,
   (train_val_step_assert_multi_gpu demoSelf2 demoEnv [5] [] (by decide)).2⟩

/-- Claim C2: on an instance with exactly one configured device whose
device check passes, train_step (resp. val_step) scatters the inputs and
kwargs to device_ids and returns the wrapped module's train_step
(resp. val_step) applied to the first scattered chunk. -/
theorem train_val_step_single_gpu {V : Type}
    (self : MMDataParallel V) (env : MMEnv V) (inputs : List V)
    (kwargs : List (String × V)) (i0 : List V) (k0 : List (String × V))
    (h1 : self.device_ids.length = 1)
    (h2 : deviceCheck self = none)
    (hi : (self.scatter env inputs kwargs
            (ScatterTarget.ofList self.device_ids)).1.head? = some i0)
    (hk : (self.scatter env inputs kwargs
            (ScatterTarget.ofList self.device_ids)).2.head? = some k0) :
    self.train_step env inputs kwargs =
      (Except.ok (self.module.train_step i0 k0),
       [MMOp.scatterOp (ScatterTarget.ofList self.device_ids),
        MMOp.moduleTrainStep]) ∧
    self.val_step env inputs kwargs =
      (Except.ok (self.module.val_step i0 k0),
       [MMOp.scatterOp (ScatterTarget.ofList self.device_ids),
        MMOp.moduleValStep]) := by
  have hne : self.device_ids ≠ [] := by
    intro hnil
    rw [hnil] at h1
    simp at h1
  constructor
  · simp [MMDataParallel.train_step, hne, h1, h2, hi, hk]
  · simp [MMDataParallel.val_step, hne, h1, h2, hi, hk]

/-- Witness for C2 at the concrete single-device instance. -/
theorem train_val_step_single_gpu_witness :
    demoSelf1.device_ids.length = 1 ∧
    deviceCheck demoSelf1 = none ∧
    demoSelf1.train_step demoEnv [5] [] =
      (Except.ok (demoSelf1.module.train_step [5] []),
       [MMOp.scatterOp (ScatterTarget.ofList demoSelf1.device_ids),
        MMOp.moduleTrainStep]) ∧
    demoSelf1.val_step demoEnv [5] [] =
      (Except.ok (demoSelf1.module.val_step [5] []),
       [MMOp.scatterOp (ScatterTarget.ofList demoSelf1.device_ids),
        MMOp.moduleValStep]) :=
  ⟨rfl, rfl,
   (train_val_step_single_gpu demoSelf1 demoEnv [5] [] [5] []
      rfl rfl rfl rfl).1,
   (train_val_step_single_gpu demoSelf1 demoEnv [5] [] [5] []
      rfl rfl rfl rfl).2⟩

/-- Claim C4: on a CPU-only instance (empty device_ids), forward scatters
the inputs and kwargs with target [-1] and returns the module applied to
the first scattered chunk. -/
theorem forward_cpu_scatter {V : Type}
    (self : MMDataParallel V) (env : MMEnv V) (inputs : List V)
    (kwargs : List (String × V)) (i0 : List V) (k0 : List (String × V))
    (h : self.device_ids = [])
    (hi : (self.scatter env inputs kwargs
            (ScatterTarget.ofList [-1])).1.head? = some i0)
    (hk : (self.scatter env inputs kwargs
            (ScatterTarget.ofList [-1])).2.head? = some k0) :
    self.forward env inputs kwargs =
      (Except.ok (self.module.call i0 k0),
       [MMOp.scatterOp (ScatterTarget.ofList [-1]), MMOp.moduleCall]) := by
  simp [MMDataParallel.forward, h, hi, hk]

/-- Witness for C4 at the concrete CPU-only instance. -/
theorem forward_cpu_scatter_witness :
    cpuSelf.device_ids = [] ∧
    cpuSelf.forward demoEnv [5] [] =
      (Except.ok (cpuSelf.module.call [5] []),
       [MMOp.scatterOp (ScatterTarget.ofList [-1]), MMOp.moduleCall]) :=
  ⟨rfl, forward_cpu_scatter cpuSelf demoEnv [5] [] [5] [] rfl rfl rfl⟩

/-- Claim C1: on an instance with more than one device whose device check
passes, forward scatters the inputs and kwargs across device_ids,
replicates the module, applies the replicas in parallel to the scattered
chunks and returns the outputs gathered onto the output device; the trace
records the four primitive operations in that order. -/
theorem forward_multi_gpu {V : Type}
    (self : MMDataParallel V) (env : MMEnv V) (inputs : List V)
    (kwargs : List (String × V)) (od : Int)
    (h1 : 1 < self.device_ids.length)
    (h2 : deviceCheck self = none)
    (hod : self.output_device = some od) :
    self.forward env inputs kwargs =
      (Except.ok (env.gather
         (env.parallel_apply
           (env.replicate self.module
             (self.device_ids.take (self.scatter env inputs kwargs
               (ScatterTarget.ofList self.device_ids)).1.length))
           (self.scatter env inputs kwargs
             (ScatterTarget.ofList self.device_ids)).1
           (self.scatter env inputs kwargs
             (ScatterTarget.ofList self.device_ids)).2)
         od),
       [MMOp.scatterOp (ScatterTarget.ofList self.device_ids),
        MMOp.replicateOp (self.device_ids.take (self.scatter env inputs
          kwargs (ScatterTarget.ofList self.device_ids)).1.length),
        MMOp.parallelApplyOp
          (env.replicate self.module
            (self.device_ids.take (self.scatter env inputs kwargs
              (ScatterTarget.ofList self.device_ids)).1.length)).length
          (self.scatter env inputs kwargs
            (ScatterTarget.ofList self.device_ids)).1.length,
        MMOp.gatherOp od]) := by
  have hne : self.device_ids ≠ [] := by
    intro hnil
    rw [hnil] at h1
    simp at h1
  have hlen : self.device_ids.length ≠ 1 := by omega
  simp [MMDataParallel.forward, hne, hlen, h2, hod]

/-- Witness for C1 at the concrete two-device instance. -/
theorem forward_multi_gpu_witness :
    1 < demoSelf2.device_ids.length ∧
    deviceCheck demoSelf2 = none ∧
    demoSelf2.forward demoEnv [5] [] =
      (Except.ok 5,
       [MMOp.scatterOp (ScatterTarget.ofList [0, 1]),
        MMOp.replicateOp [0, 1],
        MMOp.parallelApplyOp 2 2,
        MMOp.gatherOp 0]) :=
  ⟨by decide, rfl,
   forward_multi_gpu demoSelf2 demoEnv [5] [] 0 (by decide) rfl rfl⟩

/-- Claim C9: during a multi-device forward the module is replicated onto
exactly the first len(inputs) entries of device_ids — the devices that
received a scattered chunk — and parallel_apply receives one replica per
scattered chunk (the replica count equals the chunk count). -/
theorem forward_replicates_scattered_devices {V : Type}
    (self : MMDataParallel V) (env : MMEnv V) (inputs : List V)
    (kwargs : List (String × V)) (od : Int)
    (h1 : 1 < self.device_ids.length)
    (h2 : deviceCheck self = none)
    (hod : self.output_device = some od)
    (hrep : ∀ (m : NNModule V) (ds : List Int),
      (env.replicate m ds).length = ds.length)
    (hle : (self.scatter env inputs kwargs
             (ScatterTarget.ofList self.device_ids)).1.length ≤
           self.device_ids.length) :
    (self.forward env inputs kwargs).2 =
      [MMOp.scatterOp (ScatterTarget.ofList self.device_ids),
       MMOp.replicateOp (self.device_ids.take (self.scatter env inputs
         kwargs (ScatterTarget.ofList self.device_ids)).1.length),
       MMOp.parallelApplyOp
         (self.scatter env inputs kwargs
           (ScatterTarget.ofList self.device_ids)).1.length
         (self.scatter env inputs kwargs
           (ScatterTarget.ofList self.device_ids)).1.length,
       MMOp.gatherOp od] := by
  rw [forward_multi_gpu self env inputs kwargs od h1 h2 hod]
  rw [hrep self.module]
  rw [List.length_take]
  rw [Nat.min_eq_left hle]

/-- Witness for C9 at the concrete two-device instance. -/
theorem forward_replicates_scattered_devices_witness :
    1 < demoSelf2.device_ids.length ∧
    (demoSelf2.forward demoEnv [5] []).2 =
      [MMOp.scatterOp (ScatterTarget.ofList [0, 1]),
       MMOp.replicateOp [0, 1],
       MMOp.parallelApplyOp 2 2,
       MMOp.gatherOp 0] :=
  ⟨by decide,
   forward_replicates_scattered_devices demoSelf2 demoEnv [5] [] 0
     (by decide) rfl rfl (fun m ds => by simp [demoEnv]) (by decide)⟩

/-- Claim C7: on an instance with exactly one device whose device check
passes, forward returns the module applied to the first scattered chunk,
with a trace showing no replicate, parallel_apply or gather; and when the
framework primitives behave as the spec describes on a single device
(replication onto the one device yields the module itself, parallel_apply
on singletons is a direct call, gather of a single output is that output),
this equals the general scatter-replicate-apply-gather pipeline. -/
theorem forward_single_gpu_equiv {V : Type}
    (self : MMDataParallel V) (env : MMEnv V) (inputs : List V)
    (kwargs : List (String × V)) (d : Int) (od : Int)
    (i0 : List V) (k0 : List (String × V))
    (hd : self.device_ids = [d])
    (h2 : deviceCheck self = none)
    (hi : (self.scatter env inputs kwargs
            (ScatterTarget.ofList self.device_ids)).1 = [i0])
    (hk : (self.scatter env inputs kwargs
            (ScatterTarget.ofList self.device_ids)).2 = [k0])
    (hrep : env.replicate self.module [d] = [self.module])
    (hpa : ∀ (m : NNModule V) (i : List V) (k : List (String × V)),
      env.parallel_apply [m] [i] [k] = [m.call i k])
    (hg : ∀ y, env.gather [y] od = y) :
    self.forward env inputs kwargs =
      (Except.ok (self.module.call i0 k0),
       [MMOp.scatterOp (ScatterTarget.ofList self.device_ids),
        MMOp.moduleCall]) ∧
    self.forward env inputs kwargs =
      (Except.ok (generalPipeline env self.module self.device_ids self.dim
         od inputs kwargs),
       [MMOp.scatterOp (ScatterTarget.ofList self.device_ids),
        MMOp.moduleCall]) := by
  have hne : self.device_ids ≠ [] := by rw [hd]; simp
  have h1 : self.device_ids.length = 1 := by rw [hd]; rfl
  have hi0 : (self.scatter env inputs kwargs
      (ScatterTarget.ofList self.device_ids)).1.head? = some i0 := by
    rw [hi]; rfl
  have hk0 : (self.scatter env inputs kwargs
      (ScatterTarget.ofList self.device_ids)).2.head? = some k0 := by
    rw [hk]; rfl
  have hmain : self.forward env inputs kwargs =
      (Except.ok (self.module.call i0 k0),
       [MMOp.scatterOp (ScatterTarget.ofList self.device_ids),
        MMOp.moduleCall]) := by
    simp [MMDataParallel.forward, hne, h1, h2, hi0, hk0]
  have hpipe : generalPipeline env self.module self.device_ids self.dim od
      inputs kwargs = self.module.call i0 k0 := by
    unfold generalPipeline
    simp only [MMDataParallel.scatter] at hi hk
    rw [hi, hk]
    simp only [List.length_singleton]
    rw [hd]
    simp only [List.take_succ_cons, List.take_zero]
    rw [hrep, hpa, hg]
  exact ⟨hmain, by rw [hmain, hpipe]⟩

/-- Witness for C7 at the concrete single-device instance. -/
theorem forward_single_gpu_equiv_witness :
    demoSelf1.device_ids = [0] ∧
    demoSelf1.forward demoEnv [5] [] =
      (Except.ok (generalPipeline demoEnv demoSelf1.module
         demoSelf1.device_ids demoSelf1.dim 0 [5] []),
       [MMOp.scatterOp (ScatterTarget.ofList demoSelf1.device_ids),
        MMOp.moduleCall]) :=
  ⟨rfl,
   (forward_single_gpu_equiv demoSelf1 demoEnv [5] [] 0 0 [5] []
      rfl rfl rfl rfl rfl (fun _ _ _ => rfl) (fun _ => rfl)).2⟩

/-- Claim C10: constructor postconditions. Without CUDA the constructor
stores the module, an empty device id list and the dim and sets neither
output_device nor src_device_obj. With CUDA, a missing device_ids argument
defaults to all device indices, a missing output_device defaults to
device_ids[0], src_device_obj is the CUDA device of device_ids[0], and the
module is moved onto the device exactly when one device is configured. -/
theorem init_postconditions {V : Type} (envA : CudaEnv)
    (module : NNModule V) (dids : List Int) (d0 : Int) (od : Int)
    (dim : Int) :
    (envA.is_available = false →
       ∀ (idsArg : Option (List Int)) (odArg : Option Int),
         MMDataParallel.init envA module idsArg odArg dim =
           Except.ok
             { module := module
               device_ids := []
               dim := dim
               output_device := none
               src_device_obj := none }) ∧
    (envA.is_available = true →
       MMDataParallel.init envA module none (some od) dim =
         MMDataParallel.init envA module
           (some ((List.range envA.device_count).map Int.ofNat))
           (some od) dim ∧
       MMDataParallel.init envA module none none dim =
         MMDataParallel.init envA module
           (some ((List.range envA.device_count).map Int.ofNat))
           none dim) ∧
    (envA.is_available = true → dids.head? = some d0 →
       MMDataParallel.init envA module (some dids) none dim =
         Except.ok
           { module := if dids.length = 1 then module.cudaTo d0 else module
             device_ids := dids.map get_device_index
             dim := dim
             output_device := some (get_device_index d0)
             src_device_obj :=
               some (TorchDevice.cuda (get_device_index d0)) } ∧
       MMDataParallel.init envA module (some dids) (some od) dim =
         Except.ok
           { module := if dids.length = 1 then module.cudaTo d0 else module
             device_ids := dids.map get_device_index
             dim := dim
             output_device := some (get_device_index od)
             src_device_obj :=
               some (TorchDevice.cuda (get_device_index d0)) }) := by
  refine ⟨?_, ?_, ?_⟩
  · intro hfalse idsArg odArg
    simp [MMDataParallel.init, hfalse]
  · intro htrue
    constructor
    · simp [MMDataParallel.init, htrue]
    · simp [MMDataParallel.init, htrue]
  · intro htrue hhead
    constructor
    · simp [MMDataParallel.init, mkMMDP, htrue, hhead]
    · simp [MMDataParallel.init, mkMMDP, htrue, hhead]

/-- Witness for C10: a CUDA-less constructor call and a single-device
constructor call at concrete arguments. -/
theorem init_postconditions_witness :
    MMDataParallel.init ⟨false, 0⟩ demoModule none none 0 =
      Except.ok
        { module := demoModule
          device_ids := []
          dim := 0
          output_device := none
          src_device_obj := none } ∧
    MMDataParallel.init ⟨true, 2⟩ demoModule (some [3]) none 0 =
      Except.ok
        { module := if ([3] : List Int).length = 1 then demoModule.cudaTo 3
                    else demoModule
          device_ids := ([3] : List Int).map get_device_index
          dim := 0
          output_device := some (get_device_index 3)
          src_device_obj := some (TorchDevice.cuda (get_device_index 3)) } :=
  ⟨(init_postconditions ⟨false, 0⟩ demoModule [3] 3 0 0).1 rfl none none,
   ((init_postconditions ⟨true, 2⟩ demoModule [3] 3 0 0).2.2 rfl rfl).1⟩

/-- The device check only ever raises a RuntimeError. -/
theorem deviceCheck_isRuntimeErr {V : Type} (self : MMDataParallel V)
    (e : PyError) (he : deviceCheck self = some e) :
    e.isRuntimeErr = true := by
  unfold deviceCheck at he
  cases hfind : (self.module.parameters ++ self.module.buffers).find?
      (fun t => some t.device ≠ self.src_device_obj) with
  | none =>
      rw [hfind] at he
      exact absurd he (by simp)
  | some t =>
      rw [hfind] at he
      simp only [Option.some.injEq] at he
      subst he
      rfl

/-- The device check passes exactly when every parameter and buffer is on
src_device_obj. -/
theorem deviceCheck_eq_none_iff {V : Type} (self : MMDataParallel V) :
    deviceCheck self = none ↔
      ∀ t ∈ self.module.parameters ++ self.module.buffers,
        some t.device = self.src_device_obj := by
  unfold deviceCheck
  cases hfind : (self.module.parameters ++ self.module.buffers).find?
      (fun t => some t.device ≠ self.src_device_obj) with
  | none =>
      rw [List.find?_eq_none] at hfind
      simp only []
      constructor
      · intro _ t ht
        have := hfind t ht
        simpa using this
      · intro _
        trivial
  | some t =>
      have hp := List.find?_some hfind
      have hmem := List.mem_of_find?_eq_some hfind
      simp only []
      constructor
      · intro h
        exact absurd h (by simp)
      · intro hall
        have h2 := hall t hmem
        simp [h2] at hp

/-- Claim C6 fails as stated: on the two-device instance whose module has
a parameter on the cpu, train_step and val_step raise AssertionError, not
RuntimeError — the assert on the device count precedes the device check. -/
theorem multi_gpu_step_not_runtime_error :
    demoBadSelf2.device_ids ≠ [] ∧
    (deviceCheck demoBadSelf2).isSome = true ∧
    demoBadSelf2.train_step demoEnv [5] [] =
      (Except.error (PyError.assertionError mmdpAssertMsg), []) ∧
    resultIsRuntimeErr (demoBadSelf2.train_step demoEnv [5] []).1 = false ∧
    demoBadSelf2.val_step demoEnv [5] [] =
      (Except.error (PyError.assertionError mmdpAssertMsg), []) ∧
    resultIsRuntimeErr (demoBadSelf2.val_step demoEnv [5] []).1 = false :=
  ⟨by decide, rfl, rfl, rfl, rfl, rfl⟩

/-- Claim C6 (amended): with nonempty device_ids, a mismatched parameter
or buffer makes forward — and, when exactly one device is configured,
train_step and val_step — raise RuntimeError with an empty trace (no
scatter, no delegation); for more than one device the steps raise their
AssertionError first. The check passes exactly when every parameter and
buffer is on src_device_obj, and then no call raises RuntimeError. -/
theorem device_check_amended {V : Type} (self : MMDataParallel V)
    (env : MMEnv V) (inputs : List V) (kwargs : List (String × V))
    (hne : self.device_ids ≠ []) :
    (∀ e, deviceCheck self = some e →
       e.isRuntimeErr = true ∧
       self.forward env inputs kwargs = (Except.error e, []) ∧
       (self.device_ids.length = 1 →
          self.train_step env inputs kwargs = (Except.error e, []) ∧
          self.val_step env inputs kwargs = (Except.error e, [])) ∧
       (self.device_ids.length ≠ 1 →
          self.train_step env inputs kwargs =
            (Except.error (PyError.assertionError mmdpAssertMsg), []) ∧
          self.val_step env inputs kwargs =
            (Except.error (PyError.assertionError mmdpAssertMsg), []))) ∧
    (deviceCheck self = none ↔
       ∀ t ∈ self.module.parameters ++ self.module.buffers,
         some t.device = self.src_device_obj) ∧
    (deviceCheck self = none →
       resultIsRuntimeErr (self.forward env inputs kwargs).1 = false ∧
       resultIsRuntimeErr (self.train_step env inputs kwargs).1 = false ∧
       resultIsRuntimeErr (self.val_step env inputs kwargs).1 = false) := by
  refine ⟨?_, deviceCheck_eq_none_iff self, ?_⟩
  · intro e he
    refine ⟨deviceCheck_isRuntimeErr self e he, ?_, ?_, ?_⟩
    · simp [MMDataParallel.forward, hne, he]
    · intro h1
      constructor
      · simp [MMDataParallel.train_step, hne, h1, he]
      · simp [MMDataParallel.val_step, hne, h1, he]
    · intro h1
      constructor
      · simp [MMDataParallel.train_step, hne, h1]
      · simp [MMDataParallel.val_step, hne, h1]
  · intro hnone
    refine ⟨?_, ?_, ?_⟩
    · simp only [MMDataParallel.forward, if_neg hne, hnone]
      by_cases h1 : self.device_ids.length = 1
      · simp only [if_pos h1]
        cases (self.scatter env inputs kwargs
            (ScatterTarget.ofList self.device_ids)).1.head? <;>
          cases (self.scatter env inputs kwargs
              (ScatterTarget.ofList self.device_ids)).2.head? <;>
          rfl
      · simp only [if_neg h1]
        cases self.output_device <;> rfl
    · simp only [MMDataParallel.train_step, if_neg hne]
      by_cases h1 : self.device_ids.length = 1
      · simp only [if_pos h1, hnone]
        cases (self.scatter env inputs kwargs
            (ScatterTarget.ofList self.device_ids)).1.head? <;>
          cases (self.scatter env inputs kwargs
              (ScatterTarget.ofList self.device_ids)).2.head? <;>
          rfl
      · simp only [if_neg h1]
        rfl
    · simp only [MMDataParallel.val_step, if_neg hne]
      by_cases h1 : self.device_ids.length = 1
      · simp only [if_pos h1, hnone]
        cases (self.scatter env inputs kwargs
            (ScatterTarget.ofList self.device_ids)).1.head? <;>
          cases (self.scatter env inputs kwargs
              (ScatterTarget.ofList self.device_ids)).2.head? <;>
          rfl
      · simp only [if_neg h1]
        rfl

/-- The RuntimeError the single-device bad instance produces. -/
def demoMismatchErr : PyError :=
  PyError.runtimeError
    ("module must have its parameters and buffers on device cuda:0" ++
     " (device_ids[0]) but found one of them on device: cpu")

/-- Witness for the amended C6 at the single-device instance with a cpu
parameter and at the well-placed single-device instance. -/
theorem device_check_amended_witness :
    demoBadSelf1.device_ids ≠ [] ∧
    deviceCheck demoBadSelf1 = some demoMismatchErr ∧
    demoMismatchErr.isRuntimeErr = true ∧
    demoBadSelf1.forward demoEnv [5] [] =
      (Except.error demoMismatchErr, []) ∧
    demoBadSelf1.train_step demoEnv [5] [] =
      (Except.error demoMismatchErr, []) ∧
    resultIsRuntimeErr (demoSelf1.forward demoEnv [5] []).1 = false :=
  ⟨by decide, rfl,
   ((device_check_amended demoBadSelf1 demoEnv [5] [] (by decide)).1
      demoMismatchErr rfl).1,
   ((device_check_amended demoBadSelf1 demoEnv [5] [] (by decide)).1
      demoMismatchErr rfl).2.1,
   (((device_check_amended demoBadSelf1 demoEnv [5] [] (by decide)).1
      demoMismatchErr rfl).2.2.1 rfl).1,
   ((device_check_amended demoSelf1 demoEnv [5] [] (by decide)).2.2
      rfl).1⟩

/-- Claim C5: evaluation at the failing input. On the CPU-only instance,
train_step and val_step scatter with the plain integer target -1, not the
list [-1] that forward uses, and they never reach the wrapped module: the
double-star unpacking of the scattered kwargs tuple raises TypeError. The
forward CPU path, in contrast, succeeds on the first scattered chunk. -/
theorem cpu_step_scatter_divergence :
    cpuSelf.device_ids = [] ∧
    (cpuSelf.train_step demoEnv [5] []).2 =
      [MMOp.scatterOp (ScatterTarget.ofInt (-1))] ∧
    (cpuSelf.val_step demoEnv [5] []).2 =
      [MMOp.scatterOp (ScatterTarget.ofInt (-1))] ∧
    (cpuSelf.forward demoEnv [5] []).2 =
      [MMOp.scatterOp (ScatterTarget.ofList [-1]), MMOp.moduleCall] ∧
    ScatterTarget.ofInt (-1) ≠ ScatterTarget.ofList [-1] ∧
    (cpuSelf.train_step demoEnv [5] []).1 =
      Except.error
        (PyError.typeError "argument after ** must be a mapping") ∧
    (cpuSelf.forward demoEnv [5] []).1 = Except.ok 5 :=
  ⟨rfl, rfl, rfl, rfl, by decide, rfl, rfl⟩

end MMCV
